import Mathlib

/-!
Verification of the monthly time-series data model (`data.py`).

The module stores monthly values (floats in the source) in a flat list,
a whole number of years at a time, anchored at `first_year`.  The source
performs no arithmetic on the stored values, only exact equality
comparison against the sentinel `MISSING = 9999.0`, so monthly values
are embedded as rationals (`ℚ`) with `MISSING = 9999`.  Years are
Python integers, embedded as `ℤ`; `not self.first_year` on an integer
means `first_year = 0`.

`add_year` mutates the object in place and signals contract violations
with `assert`, which raises after any mutations already performed have
taken effect.  It is embedded as a state-passing function returning
`AddYearResult`: `ok` carries the new state, `error` carries the kind of
assertion that fired together with the state of the object at the moment
the assertion fired (the state a caller that catches the error observes).
-/

/-- The value that is used to indicate a bad or missing data point
(`MISSING = 9999.0`). -/
def MISSING : ℚ := 9999

/-- `invalid(v)`: `v == MISSING`. -/
def invalid (v : ℚ) : Bool := v = MISSING

/-- `valid(v)`: `not invalid(v)`. -/
def valid (v : ℚ) : Bool := ! invalid v

/-- The mutable state of a `Series` object: the `first_year` and
`series` instance variables (other keyword attributes are opaque
pass-through fields not interpreted by the Series logic). -/
structure Series where
  first_year : ℤ
  series : List ℚ
deriving DecidableEq, Repr

/-- The three `assert` statements of `add_year`, in source order. -/
inductive AddYearError where
  /-- `assert len(data) == 12` failed. -/
  | invalidArgument : AddYearError
  /-- `assert len(self) % 12 == 0` failed. -/
  | internalInvariant : AddYearError
  /-- `assert year == self.last_year + 1` failed. -/
  | sequenceViolation : AddYearError
deriving DecidableEq, Repr

/-- Outcome of a call to `add_year`: normal return with the new object
state, or an assertion failure together with the object state at the
moment the assertion fired. -/
inductive AddYearResult where
  | ok : Series → AddYearResult
  | error : AddYearError → Series → AddYearResult
deriving DecidableEq, Repr

namespace Series

/-- `Series.__init__(self, first_year, **k)`: `self.first_year = first_year;
self.series = []`. -/
def init (first_year : ℤ) : Series :=
  { first_year := first_year, series := [] }

/-- `Series.__len__`: `len(self.series)`. -/
def length (s : Series) : ℕ :=
  s.series.length

/-- `Series.last_year`: `self.first_year + len(self.series) // 12 - 1`. -/
def last_year (s : Series) : ℤ :=
  s.first_year + (s.series.length / 12 : ℕ) - 1

/-- `Series.good_count`: `bad_count = self.series.count(MISSING);
return len(self.series) - bad_count`. -/
def good_count (s : Series) : ℕ :=
  s.series.length - s.series.count MISSING

/-- `Series.missing_year`: a year's worth of missing data,
`[MISSING]*12`. -/
def missing_year : List ℚ :=
  List.replicate 12 MISSING

/-- `Series.has_data_for_year`: `self.first_year <= year <= self.last_year`. -/
def has_data_for_year (s : Series) (year : ℤ) : Bool :=
  s.first_year ≤ year ∧ year ≤ s.last_year

/-- `Series.get_a_year`: if `has_data_for_year(year)`, the slice
`self.series[(year - first_year) * 12 :][:12]`; otherwise
`list(self.missing_year)` (a fresh copy of the template). -/
def get_a_year (s : Series) (year : ℤ) : List ℚ :=
  if s.has_data_for_year year then
    (s.series.drop ((year - s.first_year) * 12).toNat).take 12
  else
    missing_year

/-- The anchoring/padding phase of `add_year`: `if not self.first_year:
self.first_year = year` else `gap = year - self.last_year - 1; if gap > 0:
self.series.extend([MISSING] * (gap * 12))`.  Returns the object state
after this phase. -/
def pad_state (s : Series) (year : ℤ) : Series :=
  if s.first_year = 0 then
    { s with first_year := year }
  else if year - s.last_year - 1 > 0 then
    { s with series :=
        s.series ++ List.replicate ((year - s.last_year - 1) * 12).toNat MISSING }
  else
    s

/-- `Series.add_year(self, year, data)`, embedded statement by statement:
`assert len(data) == 12`; the anchoring/padding phase (`pad_state`);
`assert len(self) % 12 == 0`; `if year < self.first_year: return`;
`assert year == self.last_year + 1`; `self.series.extend(data)`. -/
def add_year (s : Series) (year : ℤ) (data : List ℚ) : AddYearResult :=
  if data.length = 12 then
    let s1 : Series := pad_state s year
    if s1.series.length % 12 = 0 then
      if year < s1.first_year then
        AddYearResult.ok s1
      else if year = s1.last_year + 1 then
        AddYearResult.ok { s1 with series := s1.series ++ data }
      else
        AddYearResult.error AddYearError.sequenceViolation s1
    else
      AddYearResult.error AddYearError.internalInvariant s1
  else
    AddYearResult.error AddYearError.invalidArgument s

end Series

/-- Whether an `add_year` call raised (any of its asserts fired). -/
def AddYearResult.isError : AddYearResult → Bool
  | AddYearResult.ok _ => false
  | AddYearResult.error _ _ => true

/-! ### Case analysis of `add_year`

The following lemmas characterize `add_year` on every input, for states
satisfying the documented invariant `len(series) % 12 == 0`.  Together
they cover all cases: wrong data length; falsy `first_year` with empty
or non-empty series; truthy `first_year` with `year` below `first_year`,
equal to `last_year + 1`, beyond `last_year + 1` (gap), or in
`[first_year, last_year]`. -/

namespace Series

theorem add_year_wrong_length (s : Series) (year : ℤ) (data : List ℚ)
    (hlen : data.length ≠ 12) :
    s.add_year year data = AddYearResult.error AddYearError.invalidArgument s := by
  simp [Series.add_year, hlen]

theorem add_year_falsy_empty (s : Series) (year : ℤ) (data : List ℚ)
    (hfy : s.first_year = 0) (hnil : s.series = [])
    (hlen : data.length = 12) :
    s.add_year year data =
      AddYearResult.ok { s with first_year := year, series := s.series ++ data } := by
  have hpad : Series.pad_state s year = { s with first_year := year } := by
    simp [Series.pad_state, hfy]
  simp [Series.add_year, hlen, hpad, Series.last_year, hnil]

theorem add_year_falsy_nonempty (s : Series) (year : ℤ) (data : List ℚ)
    (hfy : s.first_year = 0) (hnil : s.series ≠ [])
    (hinv : s.series.length % 12 = 0) (hlen : data.length = 12) :
    s.add_year year data =
      AddYearResult.error AddYearError.sequenceViolation { s with first_year := year } := by
  have hpad : Series.pad_state s year = { s with first_year := year } := by
    simp [Series.pad_state, hfy]
  have hlen0 : s.series.length ≠ 0 := by
    simpa [List.length_eq_zero] using hnil
  have hdiv : s.series.length / 12 ≠ 0 := by omega
  simp [Series.add_year, hlen, hpad, hinv, Series.last_year]
  omega

theorem add_year_before_first (s : Series) (year : ℤ) (data : List ℚ)
    (hfy : s.first_year ≠ 0) (hy : year < s.first_year)
    (hinv : s.series.length % 12 = 0) (hlen : data.length = 12) :
    s.add_year year data = AddYearResult.ok s := by
  have hly : s.last_year = s.first_year + (s.series.length / 12 : ℕ) - 1 := rfl
  have hpad : Series.pad_state s year = s := by
    unfold Series.pad_state
    rw [if_neg hfy, if_neg (by omega)]
  simp [Series.add_year, hlen, hpad, hinv, hy]

theorem add_year_next (s : Series) (year : ℤ) (data : List ℚ)
    (hfy : s.first_year ≠ 0) (hy : year = s.last_year + 1)
    (hinv : s.series.length % 12 = 0) (hlen : data.length = 12) :
    s.add_year year data = AddYearResult.ok { s with series := s.series ++ data } := by
  have hly : s.last_year = s.first_year + (s.series.length / 12 : ℕ) - 1 := rfl
  have hpad : Series.pad_state s year = s := by
    unfold Series.pad_state
    rw [if_neg hfy, if_neg (by omega)]
  simp only [Series.add_year, hpad]
  split_ifs <;> first | rfl | (exfalso; omega)

theorem add_year_gap (s : Series) (year : ℤ) (data : List ℚ)
    (hfy : s.first_year ≠ 0) (hy : s.last_year + 1 < year)
    (hinv : s.series.length % 12 = 0) (hlen : data.length = 12) :
    s.add_year year data =
      AddYearResult.ok { s with series :=
        (s.series ++ List.replicate ((year - s.last_year - 1) * 12).toNat MISSING)
          ++ data } := by
  have hly : s.last_year = s.first_year + (s.series.length / 12 : ℕ) - 1 := rfl
  have hpad : Series.pad_state s year =
      { s with series :=
          s.series ++ List.replicate ((year - s.last_year - 1) * 12).toNat MISSING } := by
    unfold Series.pad_state
    rw [if_neg hfy, if_pos (by omega)]
  simp only [Series.add_year, hpad, Series.last_year, List.length_append,
    List.length_replicate]
  rw [hly] at hy
  split_ifs <;> first | rfl | (exfalso; omega)

theorem add_year_out_of_sequence (s : Series) (year : ℤ) (data : List ℚ)
    (hfy : s.first_year ≠ 0) (h1 : s.first_year ≤ year) (h2 : year ≤ s.last_year)
    (hinv : s.series.length % 12 = 0) (hlen : data.length = 12) :
    s.add_year year data =
      AddYearResult.error AddYearError.sequenceViolation s := by
  have hly : s.last_year = s.first_year + (s.series.length / 12 : ℕ) - 1 := rfl
  have hpad : Series.pad_state s year = s := by
    unfold Series.pad_state
    rw [if_neg hfy, if_neg (by omega)]
  have hnotlt : ¬ year < s.first_year := by omega
  have hne : ¬ year = s.last_year + 1 := by omega
  simp [Series.add_year, hlen, hpad, hinv, hnotlt, hne]

end Series

/-! ### Concrete data for witnesses and counterexamples -/

/-- Twelve months of the value 1 (no MISSING entries). -/
def data_ones : List ℚ := List.replicate 12 1

/-- Twelve months of the value 2 (no MISSING entries). -/
def data_twos : List ℚ := List.replicate 12 2

/-- Twelve months of the value 3 (no MISSING entries). -/
def data_threes : List ℚ := List.replicate 12 3

/-! ### Claims -/

/-- **C1.** For every Series and every call to `add_year` that returns
normally (including calls ignored because `year < first_year`), the
series holds a whole number of years afterwards:
`len(series) % 12 == 0`.  (This needs no assumption on the prior state:
the `assert len(self) % 12 == 0` guard means a call that returns
normally has certified the invariant.) -/
theorem C1_add_year_whole_years (s s' : Series) (year : ℤ) (data : List ℚ)
    (h : s.add_year year data = AddYearResult.ok s') :
    s'.series.length % 12 = 0 := by
  simp only [Series.add_year] at h
  split at h
  case isTrue hlen =>
    split at h
    case isTrue hmod =>
      split at h
      case isTrue hlt =>
        injection h with h
        subst h
        exact hmod
      case isFalse hlt =>
        split at h
        case isTrue heq =>
          injection h with h
          subst h
          simp only [List.length_append]
          omega
        case isFalse heq => simp at h
    case isFalse hmod => simp at h
  case isFalse hlen => simp at h

/-- Witness for C1: adding year 1900 to a fresh `Series(1900)` returns
normally and the resulting series length is a multiple of 12. -/
theorem C1_add_year_whole_years_witness :
    (Series.mk 1900 data_ones).series.length % 12 = 0 :=
  C1_add_year_whole_years (Series.init 1900) (Series.mk 1900 data_ones)
    1900 data_ones (by decide)

/-- **C5.** For every Series with truthy `first_year` (and the documented
length invariant) and every call `add_year(year, data)` with
`len(data) == 12` and `year < first_year`, the call is a no-op: it
raises no error and returns the state completely unchanged (hence
`first_year`, `series`, `len`, `last_year` and `good_count` are all
unchanged). -/
theorem C5_ignores_years_before_first (s : Series) (year : ℤ) (data : List ℚ)
    (hinv : s.series.length % 12 = 0) (hfy : s.first_year ≠ 0)
    (hlen : data.length = 12) (hy : year < s.first_year) :
    s.add_year year data = AddYearResult.ok s :=
  Series.add_year_before_first s year data hfy hy hinv hlen

/-- Witness for C5: after `Series(1900)` has one year of data, adding
year 1899 is a no-op. -/
theorem C5_ignores_years_before_first_witness :
    (Series.mk 1900 data_ones).add_year 1899 data_twos =
      AddYearResult.ok (Series.mk 1900 data_ones) :=
  C5_ignores_years_before_first (Series.mk 1900 data_ones) 1899 data_twos
    (by decide) (by decide) (by decide) (by decide)

/-- **C8.** For every Series and year with `has_data_for_year(year)`
false, `get_a_year(year)` returns exactly 12 copies of MISSING (9999.0).
(The source builds this result as `list(self.missing_year)`, a fresh
copy of the template; in this value-semantics embedding the result is
the value `List.replicate 12 MISSING`, and a later call's result depends
only on the unchanged state, never on a previously returned list.) -/
theorem C8_get_a_year_missing (s : Series) (year : ℤ)
    (h : s.has_data_for_year year = false) :
    s.get_a_year year = List.replicate 12 MISSING ∧
    (s.get_a_year year).length = 12 ∧
    ∀ v ∈ s.get_a_year year, v = MISSING := by
  have hval : s.get_a_year year = List.replicate 12 MISSING := by
    simp [Series.get_a_year, h, Series.missing_year]
  refine ⟨hval, ?_, ?_⟩
  · rw [hval]; simp
  · rw [hval]
    intro v hv
    exact List.eq_of_mem_replicate hv

/-- Witness for C8: a fresh `Series(1900)` has no data for 2000 and
`get_a_year(2000)` is 12 copies of MISSING. -/
theorem C8_get_a_year_missing_witness :
    (Series.init 1900).get_a_year 2000 = List.replicate 12 MISSING :=
  (C8_get_a_year_missing (Series.init 1900) 2000 (by decide)).1

/-- **C9.** For every Series, `good_count()` equals the number of
entries of `series` that are not exactly equal to MISSING (9999.0). -/
theorem C9_good_count_counts_non_missing (s : Series) :
    s.good_count = (s.series.filter (fun v => v ≠ MISSING)).length := by
  obtain ⟨fy, l⟩ := s
  show l.length - l.count MISSING = (l.filter (fun v => v ≠ MISSING)).length
  induction l with
  | nil => rfl
  | cons a t ih =>
    have hc : t.count MISSING ≤ t.length := List.count_le_length _ _
    by_cases ha : a = MISSING
    · subst ha
      rw [List.filter_cons_of_neg (by simp), List.count_cons_self,
        List.length_cons]
      omega
    · rw [List.filter_cons_of_pos (by simp [ha]),
        List.count_cons_of_ne (Ne.symm ha), List.length_cons,
        List.length_cons]
      omega

/-- **C10.** A freshly constructed Series with truthy `first_year` has
`len() == 0`, `last_year == first_year - 1`, `good_count() == 0`, no
data for any year, and `get_a_year` returns 12 copies of MISSING for
every year. -/
theorem C10_fresh_series (fy year : ℤ) (_hfy : fy ≠ 0) :
    (Series.init fy).length = 0 ∧
    (Series.init fy).last_year = fy - 1 ∧
    (Series.init fy).good_count = 0 ∧
    (Series.init fy).has_data_for_year year = false ∧
    (Series.init fy).get_a_year year = List.replicate 12 MISSING := by
  have hhd : (Series.init fy).has_data_for_year year = false := by
    simp [Series.has_data_for_year, Series.init, Series.last_year]
    omega
  refine ⟨rfl, ?_, rfl, hhd, ?_⟩
  · simp [Series.init, Series.last_year]
  · simp [Series.get_a_year, hhd, Series.missing_year]

/-- Witness for C10: the fresh `Series(1900)`, queried at year 1950. -/
theorem C10_fresh_series_witness :
    (Series.init 1900).length = 0 ∧
    (Series.init 1900).last_year = 1900 - 1 ∧
    (Series.init 1900).good_count = 0 ∧
    (Series.init 1900).has_data_for_year 1950 = false ∧
    (Series.init 1900).get_a_year 1950 = List.replicate 12 MISSING :=
  C10_fresh_series 1900 1950 (by decide)

/-- The final state of the 1900/1901/1903 scenario (C7). -/
def scenario_final : Series :=
  Series.mk 1900
    ((data_ones ++ data_twos) ++ List.replicate 12 MISSING ++ data_threes)

/-- **C2.** For every Series and year with `has_data_for_year(year)`
true, `get_a_year(year)` returns exactly the 12 values
`series[(year-first_year)*12 : +12]` (it has length 12 and its `i`-th
element is the series entry at offset `(year-first_year)*12 + i`), and
re-querying without intervening mutation returns the same values. -/
theorem C2_get_a_year_slice (s : Series) (year : ℤ)
    (h : s.has_data_for_year year = true) :
    (s.get_a_year year).length = 12 ∧
    (∀ i : ℕ, i < 12 →
        (s.get_a_year year)[i]? =
          s.series[(((year - s.first_year) * 12).toNat + i)]?) ∧
    s.get_a_year year = s.get_a_year year := by
  have hb : s.first_year ≤ year ∧ year ≤ s.last_year := by
    simpa [Series.has_data_for_year] using h
  have hly : s.last_year = s.first_year + (s.series.length / 12 : ℕ) - 1 := rfl
  have hq : (s.series.length / 12) * 12 ≤ s.series.length :=
    Nat.div_mul_le_self _ _
  have hle : ((year - s.first_year) * 12).toNat + 12 ≤ s.series.length := by
    obtain ⟨hb1, hb2⟩ := hb
    rw [hly] at hb2
    omega
  have hget : s.get_a_year year =
      (s.series.drop ((year - s.first_year) * 12).toNat).take 12 := by
    simp [Series.get_a_year, h]
  refine ⟨?_, ?_, rfl⟩
  · rw [hget, List.length_take, List.length_drop]
    omega
  · intro i hi
    rw [hget, List.getElem?_take_of_lt hi, List.getElem?_drop]

/-- Witness for C2: `Series(1900)` with one year of data, queried at
1900, returns a 12-element slice. -/
theorem C2_get_a_year_slice_witness :
    ((Series.mk 1900 data_ones).get_a_year 1900).length = 12 :=
  (C2_get_a_year_slice (Series.mk 1900 data_ones) 1900 (by decide)).1

/-- Counterexample to **C3** as stated.  The reachable state
`Series(first_year=0, series=[1]*12)` (obtained from `Series(0)` by
`add_year(0, [1]*12)`, which keeps `first_year` falsy) makes
`add_year(1, [2]*12)` fail even though `len(data) == 12` and
`first_year` is falsy — a case in which the claim says the call returns
normally.  The re-anchoring branch sets `first_year = 1` and then the
sequence assert fires because the series is non-empty. -/
theorem C3_counterexample :
    (Series.init 0).add_year 0 data_ones =
      AddYearResult.ok (Series.mk 0 data_ones) ∧
    data_twos.length = 12 ∧
    (Series.mk 0 data_ones).first_year = 0 ∧
    ((Series.mk 0 data_ones).add_year 1 data_twos).isError = true :=
  ⟨by decide, by decide, by decide, by decide⟩

/-- **C3 (amended).** For states satisfying the length invariant,
`add_year(year, data)` fails iff `len(data) != 12`, or `first_year` is
truthy and `first_year <= year <= last_year`, **or `first_year` is falsy
and the series is non-empty** (the re-anchoring branch then makes the
sequence assert fire); in all other cases the call returns normally. -/
theorem C3_amended_error_conditions (s : Series) (year : ℤ) (data : List ℚ)
    (hinv : s.series.length % 12 = 0) :
    (s.add_year year data).isError = true ↔
      data.length ≠ 12 ∨
      (s.first_year ≠ 0 ∧ s.first_year ≤ year ∧ year ≤ s.last_year) ∨
      (s.first_year = 0 ∧ s.series ≠ []) := by
  by_cases hlen : data.length = 12
  · by_cases hfy : s.first_year = 0
    · by_cases hnil : s.series = []
      · rw [Series.add_year_falsy_empty s year data hfy hnil hlen]
        simp [AddYearResult.isError, hlen, hfy, hnil]
      · rw [Series.add_year_falsy_nonempty s year data hfy hnil hinv hlen]
        simp [AddYearResult.isError, hlen, hfy, hnil]
    · by_cases hy1 : year < s.first_year
      · rw [Series.add_year_before_first s year data hfy hy1 hinv hlen]
        simp [AddYearResult.isError, hlen, hfy]
        omega
      · by_cases hy2 : year ≤ s.last_year
        · rw [Series.add_year_out_of_sequence s year data hfy (by omega) hy2
            hinv hlen]
          simp [AddYearResult.isError, hlen, hfy]
          omega
        · by_cases hy3 : year = s.last_year + 1
          · rw [Series.add_year_next s year data hfy hy3 hinv hlen]
            simp [AddYearResult.isError, hlen, hfy]
            omega
          · rw [Series.add_year_gap s year data hfy (by omega) hinv hlen]
            simp [AddYearResult.isError, hlen, hfy]
            omega
  · rw [Series.add_year_wrong_length s year data hlen]
    simp [AddYearResult.isError, hlen]

/-- Witness for C3 (amended): a duplicate year is rejected. -/
theorem C3_amended_error_conditions_witness :
    ((Series.mk 1900 data_ones).add_year 1900 data_twos).isError = true :=
  (C3_amended_error_conditions (Series.mk 1900 data_ones) 1900 data_twos
    (by decide)).mpr (Or.inr (Or.inl (by decide)))

/-- Counterexample to **C4** as stated.  From the reachable state
`Series(first_year=0, series=[1]*12)`, the failing call
`add_year(1, [1]*12)` leaves the object with `first_year == 1`: the
re-anchoring assignment `self.first_year = year` persists although the
call raised, so the Series is not left unchanged. -/
theorem C4_counterexample :
    (Series.init 0).add_year 0 data_ones =
      AddYearResult.ok (Series.mk 0 data_ones) ∧
    (Series.mk 0 data_ones).add_year 1 data_ones =
      AddYearResult.error AddYearError.sequenceViolation
        (Series.mk 1 data_ones) ∧
    (Series.mk 1 data_ones).first_year ≠ (Series.mk 0 data_ones).first_year :=
  ⟨by decide, by decide, by decide⟩

/-- **C4 (amended).** For states satisfying the length invariant, a
failing `add_year` call never changes the `series` list, and if
`first_year` was truthy the whole state is unchanged; but when
`first_year` was falsy (and the data length is 12), the failing call
leaves `first_year` set to the argument `year`. -/
theorem C4_amended_atomicity (s s_err : Series) (e : AddYearError)
    (year : ℤ) (data : List ℚ) (hinv : s.series.length % 12 = 0)
    (hf : s.add_year year data = AddYearResult.error e s_err) :
    s_err.series = s.series ∧
    (s.first_year ≠ 0 → s_err = s) ∧
    (s.first_year = 0 → data.length = 12 →
      s_err = { s with first_year := year }) := by
  by_cases hlen : data.length = 12
  · by_cases hfy : s.first_year = 0
    · by_cases hnil : s.series = []
      · rw [Series.add_year_falsy_empty s year data hfy hnil hlen] at hf
        simp at hf
      · rw [Series.add_year_falsy_nonempty s year data hfy hnil hinv hlen] at hf
        injection hf with he hs
        subst hs
        exact ⟨rfl, fun htruthy => absurd hfy htruthy, fun _ _ => rfl⟩
    · by_cases hy1 : year < s.first_year
      · rw [Series.add_year_before_first s year data hfy hy1 hinv hlen] at hf
        simp at hf
      · by_cases hy2 : year ≤ s.last_year
        · rw [Series.add_year_out_of_sequence s year data hfy (by omega) hy2
            hinv hlen] at hf
          injection hf with he hs
          subst hs
          exact ⟨rfl, fun _ => rfl, fun h0 => absurd h0 hfy⟩
        · by_cases hy3 : year = s.last_year + 1
          · rw [Series.add_year_next s year data hfy hy3 hinv hlen] at hf
            simp at hf
          · rw [Series.add_year_gap s year data hfy (by omega) hinv hlen] at hf
            simp at hf
  · rw [Series.add_year_wrong_length s year data hlen] at hf
    injection hf with he hs
    subst hs
    exact ⟨rfl, fun _ => rfl, fun _ hl => absurd hl hlen⟩

/-- Witness for C4 (amended): applying the atomicity statement to the
failing call `add_year(5, [2]*12)` on `Series(first_year=0,
series=[1]*12)`, whose error state has `first_year = 5`. -/
theorem C4_amended_atomicity_witness :
    (Series.mk 5 data_ones).series = (Series.mk 0 data_ones).series :=
  (C4_amended_atomicity (Series.mk 0 data_ones) (Series.mk 5 data_ones)
    AddYearError.sequenceViolation 5 data_twos (by decide) (by decide)).1

/-- Counterexample to **C6** as stated.  With `first_year` falsy and
first added year `0` (a falsy year), the first call does set
`first_year = year` and appends the data, but the anchor is *not*
established: `first_year` is still falsy, so the subsequent
`add_year(year+1, ...)` re-enters the anchoring branch and fails instead
of succeeding. -/
theorem C6_counterexample :
    (Series.init 0).add_year 0 data_threes =
      AddYearResult.ok (Series.mk 0 data_threes) ∧
    ((Series.mk 0 data_threes).add_year 1 data_twos).isError = true :=
  ⟨by decide, by decide⟩

/-- **C6 (amended).** For every Series constructed with falsy
`first_year` and every **nonzero** year, the first `add_year(year, data)`
call with `len(data) == 12` sets `first_year = year` and appends the 12
values, and a subsequent `add_year(year+1, data2)` with
`len(data2) == 12` succeeds, appending `data2` with `first_year` still
equal to the first call's year.  (The nonzero restriction is forced by
the counterexample: year 0 leaves `first_year` falsy.) -/
theorem C6_amended_first_call_anchors (year : ℤ) (d1 d2 : List ℚ)
    (hy : year ≠ 0) (h1 : d1.length = 12) (h2 : d2.length = 12) :
    (Series.init 0).add_year year d1 =
      AddYearResult.ok (Series.mk year d1) ∧
    (Series.mk year d1).add_year (year + 1) d2 =
      AddYearResult.ok (Series.mk year (d1 ++ d2)) := by
  constructor
  · have h := Series.add_year_falsy_empty (Series.init 0) year d1 rfl rfl h1
    simpa [Series.init] using h
  · have hly : (Series.mk year d1).last_year = year := by
      simp [Series.last_year, h1]
    have h := Series.add_year_next (Series.mk year d1) (year + 1) d2 hy
      (by rw [hly]) (by simp [h1]) h2
    simpa using h

/-- Witness for C6 (amended): anchoring at 1900 then adding 1901. -/
theorem C6_amended_first_call_anchors_witness :
    (Series.init 0).add_year 1900 data_ones =
      AddYearResult.ok (Series.mk 1900 data_ones) ∧
    (Series.mk 1900 data_ones).add_year 1901 data_twos =
      AddYearResult.ok (Series.mk 1900 (data_ones ++ data_twos)) :=
  C6_amended_first_call_anchors 1900 data_ones data_twos (by decide)
    (by decide) (by decide)

/-- Counterexample to **C7** as stated.  Running the 1900/1901/1903
scenario with MISSING-free data gives `good_count() == 36` (three good
years out of four stored), not the claimed 24. -/
theorem C7_counterexample :
    (Series.init 1900).add_year 1900 data_ones =
      AddYearResult.ok (Series.mk 1900 data_ones) ∧
    (Series.mk 1900 data_ones).add_year 1901 data_twos =
      AddYearResult.ok (Series.mk 1900 (data_ones ++ data_twos)) ∧
    (Series.mk 1900 (data_ones ++ data_twos)).add_year 1903 data_threes =
      AddYearResult.ok scenario_final ∧
    scenario_final.good_count = 36 ∧
    ¬ scenario_final.good_count = 24 :=
  ⟨by decide, by decide, by decide, by decide, by decide⟩

/-- **C7 (amended).** Constructing `Series(1900)` and adding years 1900,
1901 and 1903 (skipping 1902), each with 12 values none of which equals
MISSING, yields `last_year == 1903`, `len(series) == 48`,
`get_a_year(1902)` returning 12 copies of MISSING, and
`good_count() == 36` (not 24: three full years of good data are
stored). -/
theorem C7_amended_gap_scenario (d1 d2 d3 : List ℚ) (s1 s2 s3 : Series)
    (h1 : d1.length = 12) (h2 : d2.length = 12) (h3 : d3.length = 12)
    (g1 : d1.count MISSING = 0) (g2 : d2.count MISSING = 0)
    (g3 : d3.count MISSING = 0)
    (e1 : (Series.init 1900).add_year 1900 d1 = AddYearResult.ok s1)
    (e2 : s1.add_year 1901 d2 = AddYearResult.ok s2)
    (e3 : s2.add_year 1903 d3 = AddYearResult.ok s3) :
    s3.last_year = 1903 ∧ s3.length = 48 ∧
    s3.get_a_year 1902 = List.replicate 12 MISSING ∧
    s3.good_count = 36 := by
  -- Reconstruct the intermediate states from the call equations.
  have hs1 : s1 = Series.mk 1900 d1 := by
    rw [Series.add_year_next (Series.init 1900) 1900 d1 (by decide) (by decide)
      (by decide) h1] at e1
    injection e1 with e1
    rw [← e1]
    simp [Series.init]
  subst hs1
  have hly1 : (Series.mk 1900 d1).last_year = 1900 := by
    simp [Series.last_year, h1]
  have hs2 : s2 = Series.mk 1900 (d1 ++ d2) := by
    rw [Series.add_year_next (Series.mk 1900 d1) 1901 d2 (by norm_num)
      (by rw [hly1]; decide) (by simp [h1]) h2] at e2
    injection e2 with e2
    rw [← e2]
  subst hs2
  have hly2 : (Series.mk 1900 (d1 ++ d2)).last_year = 1901 := by
    simp [Series.last_year, h1, h2]
  have hs3 : s3 = Series.mk 1900
      (((d1 ++ d2) ++ List.replicate 12 MISSING) ++ d3) := by
    have hgap := Series.add_year_gap (Series.mk 1900 (d1 ++ d2)) 1903 d3
      (by norm_num) (by rw [hly2]; decide) (by simp [h1, h2]) h3
    rw [hly2, show (((1903 : ℤ) - 1901 - 1) * 12).toNat = 12 by decide] at hgap
    rw [hgap] at e3
    injection e3 with e3
    rw [← e3]
  subst hs3
  -- The final state is explicit; check the four facts.
  have hlen3 : (((d1 ++ d2) ++ List.replicate 12 MISSING) ++ d3).length
      = 48 := by
    simp [h1, h2, h3]
  refine ⟨?_, ?_, ?_, ?_⟩
  · show (1900 : ℤ) +
      ((((d1 ++ d2) ++ List.replicate 12 MISSING) ++ d3).length / 12 : ℕ)
        - 1 = 1903
    rw [hlen3]
    decide
  · exact hlen3
  · have hhd : Series.has_data_for_year (Series.mk 1900
        (((d1 ++ d2) ++ List.replicate 12 MISSING) ++ d3)) 1902 = true := by
      simp [Series.has_data_for_year, Series.last_year]
      omega
    unfold Series.get_a_year
    rw [if_pos hhd]
    show (((((d1 ++ d2) ++ List.replicate 12 MISSING) ++ d3).drop
      (((1902 : ℤ) - 1900) * 12).toNat).take 12) = List.replicate 12 MISSING
    rw [show (((1902 : ℤ) - 1900) * 12).toNat = 24 by decide,
      List.append_assoc (d1 ++ d2), List.drop_left' (by simp [h1, h2]),
      List.take_left' (by simp)]
  · show (((d1 ++ d2) ++ List.replicate 12 MISSING) ++ d3).length -
      List.count MISSING (((d1 ++ d2) ++ List.replicate 12 MISSING) ++ d3)
        = 36
    rw [hlen3]
    simp [List.count_append, g1, g2, g3]

/-- Witness for C7 (amended): the scenario run with concrete data. -/
theorem C7_amended_gap_scenario_witness :
    scenario_final.last_year = 1903 ∧ scenario_final.length = 48 ∧
    scenario_final.get_a_year 1902 = List.replicate 12 MISSING ∧
    scenario_final.good_count = 36 :=
  C7_amended_gap_scenario data_ones data_twos data_threes
    (Series.mk 1900 data_ones) (Series.mk 1900 (data_ones ++ data_twos))
    scenario_final
    (by decide) (by decide) (by decide) (by decide) (by decide) (by decide)
    (by decide) (by decide) (by decide)
